import Mathlib

/-!
# Verification of the jitter measurement and evaluation pipeline

A shallow embedding of the core pipeline of the `check_jitter` monitoring
plugin (`src/lib.rs`, `src/main.rs`): delta computation between consecutive
round-trip samples, statistical aggregation, rounding, threshold
classification, address resolution policy and status rendering.

Modelling conventions:
* `Duration` values are modelled as natural numbers of nanoseconds
  (`std::time::Duration` stores a non-negative integer nanosecond count).
* Inter-probe intervals are modelled as natural numbers of milliseconds
  (the source constructs them with `Duration::from_millis`).
* `f64` arithmetic is modelled over `ℚ` with real-number semantics;
  `f64::round` (round half away from zero) is `rustRound`.
* External library behaviour that is not part of this repository
  (the OS socket-address lookup behind `to_socket_addrs`, the `ping`
  transport calls, `rand::thread_rng`, and the `Display` implementations of
  `f64` and `nagios_range::NagiosRange`) is passed in as explicit oracle
  parameters, so the repository's own control flow stays fully explicit.
-/

namespace CheckJitter

/-- `AggregationMethod` from `src/lib.rs`. -/
inductive AggregationMethod where
  | average
  | median
  | max
  | min
deriving DecidableEq

/-- `nagios_range::NagiosRange` is external to this repository; all the
pipeline ever does with it is call `.check(value)` and `Display` it, so it
is modelled by its alerting predicate.  (Its rendering is a separate oracle
parameter where needed.) -/
structure ThresholdRange where
  check : ℚ → Bool

/-- `Thresholds` from `src/lib.rs`: a pair of optional alert ranges. -/
structure Thresholds where
  warning : Option ThresholdRange
  critical : Option ThresholdRange

/-- `std::net::IpAddr`: a V4 or V6 address; the payload (the raw address
bits) is modelled as a natural number, since the pipeline never inspects
it. -/
inductive IpAddr where
  | v4 (a : ℕ)
  | v6 (a : ℕ)
deriving DecidableEq

/-- `CheckJitterError` from `src/lib.rs`.  String-rendering payloads of
external error types (`PingErrorWrapper`, `url::ParseError`) are modelled
as the strings they display as. -/
inductive CheckJitterError where
  | dnsLookupFailed (addr : String)
  | dnsResolutionError (addr : String) (error : String)
  | emptyDeltas
  | insufficientSamples (n : ℕ)
  | invalidIP (s : String)
  | permissionDenied
  | pingError (e : String)
  | pingIoError (s : String)
  | timeout (ms : String)
  | urlParseError (s : String)
deriving DecidableEq

/-- `UnknownVariant` from `src/lib.rs`.  `RangeError` is modelled by its
display string and the `Duration` payload of `Timeout` by its nanosecond
count. -/
inductive UnknownVariant where
  | error (e : CheckJitterError)
  | failedToInitLogger (s : String)
  | invalidAddr (s : String)
  | invalidMinMaxInterval (mn mx : ℕ)
  | clapError (s : String)
  | noThresholds
  | rangeParseError (s : String) (e : String)
  | timeout (d : ℕ)
deriving DecidableEq

/-- `Status` from `src/lib.rs`.  The Rust type borrows `&Thresholds`; the
model stores the value. -/
inductive Status where
  | ok (m : AggregationMethod) (v : ℚ) (t : Thresholds)
  | warning (m : AggregationMethod) (v : ℚ) (t : Thresholds)
  | critical (m : AggregationMethod) (v : ℚ) (t : Thresholds)
  | unknown (u : UnknownVariant)

/-- `Status::to_int` from `src/lib.rs` (lines 373-382). -/
def Status.toInt : Status → ℤ
  | .ok _ _ _ => 0
  | .warning _ _ _ => 1
  | .critical _ _ _ => 2
  | .unknown _ => 3

/-- `abs_diff_duration` from `src/lib.rs` (lines 384-390): durations in
nanoseconds; the subtraction is only taken of the smaller from the larger,
so `Nat` subtraction is exact here. -/
def abs_diff_duration (a b : ℕ) : ℕ :=
  if a > b then a - b else b - a

/-- The `durations.windows(2).map(|w| abs_diff_duration(w[0], w[1]))`
pipeline of `calculate_deltas`: one delta per adjacent pair, in input
order. -/
def adjacentDeltas : List ℕ → List ℕ
  | a :: b :: rest => abs_diff_duration a b :: adjacentDeltas (b :: rest)
  | _ => []

/-- `calculate_deltas` from `src/lib.rs` (lines 804-817).  The error
carries `durations.len() as u8`, i.e. the length reduced mod 256. -/
def calculate_deltas (durations : List ℕ) : Except CheckJitterError (List ℕ) :=
  if durations.length < 2 then
    .error (.insufficientSamples (durations.length % 256))
  else
    .ok (adjacentDeltas durations)

/-- `generate_intervals` from `src/lib.rs` (lines 428-471), intervals in
milliseconds (the source wraps each value in `Duration::from_millis`).
`rng i` abstracts the value drawn from `rand::thread_rng().gen_range(..)`
on the `i`-th loop iteration; the `min == max` branch never consults it. -/
def generate_intervals (rng : ℕ → ℕ) (count min_interval max_interval : ℕ) : List ℕ :=
  if min_interval > max_interval then
    []
  else if max_interval = 0 ∧ min_interval = 0 then
    []
  else if max_interval = min_interval then
    List.replicate count min_interval
  else
    (List.range count).map rng

/-- The `if let Some(c) = thresholds.critical { c.check(value) }` test of
`evaluate_thresholds`: whether the critical range is present and alerts. -/
def criticalAlerts (t : Thresholds) (value : ℚ) : Bool :=
  match t.critical with
  | some c => c.check value
  | none => false

/-- The corresponding warning-range test of `evaluate_thresholds`. -/
def warningAlerts (t : Thresholds) (value : ℚ) : Bool :=
  match t.warning with
  | some w => w.check value
  | none => false

/-- `evaluate_thresholds` from `src/lib.rs` (lines 1171-1202): the early
return on an alerting critical range, then the warning range, then `Ok`. -/
def evaluate_thresholds (aggr_method : AggregationMethod) (value : ℚ)
    (thresholds : Thresholds) : Status :=
  if criticalAlerts thresholds value then
    .critical aggr_method value thresholds
  else if warningAlerts thresholds value then
    .warning aggr_method value thresholds
  else
    .ok aggr_method value thresholds

/-- `f64::round`: round to the nearest integer, ties away from zero. -/
def rustRound (x : ℚ) : ℤ :=
  if 0 ≤ x then ⌊x + 1 / 2⌋ else ⌈x - 1 / 2⌉

/-- `round_jitter` from `src/lib.rs` (lines 952-958):
`(j * 10^precision).round() / 10^precision`. -/
def round_jitter (j : ℚ) (precision : ℕ) : ℚ :=
  (rustRound (j * 10 ^ precision) : ℚ) / 10 ^ precision

/-- `calculate_avg_jitter` from `src/lib.rs` (lines 896-907): the deltas
are summed as a `Duration` and divided by the count with `Duration`
division, which truncates to whole nanoseconds (`Nat` division); the
quotient is then converted to milliseconds (`as_secs_f64() * 1000.0`,
i.e. nanoseconds / 10^6).  Division by a zero count panics in Rust; the
`Nat` quotient is junk there, and the safety claim shows the count is
never zero on the pipeline's path. -/
def calculate_avg_jitter (deltas : List ℕ) : ℚ :=
  ((deltas.sum / deltas.length : ℕ) : ℚ) / 1000000

/-- `calculate_median_jitter` from `src/lib.rs` (lines 909-931): sort a
copy of the deltas, then take the middle element (odd length) or the mean
of the two central elements (even length), converted to milliseconds.
Rust's indexing panics out of bounds (only reachable on an empty list);
`getD _ 0` returns junk there instead. -/
def calculate_median_jitter (deltas : List ℕ) : ℚ :=
  let sorted_deltas := deltas.mergeSort
  let len := sorted_deltas.length
  if len % 2 = 0 then
    let mid := len / 2
    let dur_1 := (sorted_deltas.getD (mid - 1) 0 : ℚ) / 1000000
    let dur_2 := (sorted_deltas.getD mid 0 : ℚ) / 1000000
    (dur_1 + dur_2) / 2
  else
    (sorted_deltas.getD (len / 2) 0 : ℚ) / 1000000

/-- `calculate_max_jitter` from `src/lib.rs` (lines 933-940). -/
def calculate_max_jitter (deltas : List ℕ) : Except CheckJitterError ℚ :=
  match deltas.max? with
  | none => .error .emptyDeltas
  | some m => .ok ((m : ℚ) / 1000000)

/-- `calculate_min_jitter` from `src/lib.rs` (lines 942-949). -/
def calculate_min_jitter (deltas : List ℕ) : Except CheckJitterError ℚ :=
  match deltas.min? with
  | none => .error .emptyDeltas
  | some m => .ok ((m : ℚ) / 1000000)

/-- `default_resolver` from `src/lib.rs` (lines 578-594).  `lookup` is the
OS name-resolution call behind `to_socket_addrs`, applied to
`format!("{}:0", addr)`; its own error is modelled by its display
string. -/
def default_resolver (lookup : String → Except String (List IpAddr))
    (addr : String) : Except CheckJitterError (List IpAddr) :=
  match lookup (addr ++ ":0") with
  | .ok addrs =>
    if addrs.isEmpty then
      .error (.dnsLookupFailed addr)
    else
      .ok addrs
  | .error e => .error (.dnsResolutionError addr e)

/-- `parse_addr_with_resolver` from `src/lib.rs` (lines 596-609).
`parseIpv4` / `parseIpv6` are `str::parse::<Ipv4Addr>` /
`str::parse::<Ipv6Addr>` as oracles returning the parsed address bits on
success. -/
def parse_addr_with_resolver (parseIpv4 parseIpv6 : String → Option ℕ)
    (resolver : String → Except CheckJitterError (List IpAddr))
    (addr : String) : Except CheckJitterError (List IpAddr) :=
  match parseIpv4 addr with
  | some ipv4 => .ok [IpAddr.v4 ipv4]
  | none =>
    match parseIpv6 addr with
    | some ipv6 => .ok [IpAddr.v6 ipv6]
    | none => resolver addr

/-- `get_durations` from `src/lib.rs` (lines 780-802).  `runSamples`
abstracts `run_samples` (the ICMP transport loop), receiving the single
chosen IP and the generated interval sequence; `resolver` stands where the
source calls `parse_addr` (i.e. `parse_addr_with_resolver` applied to
`default_resolver`).  Sample counts are `u8`, modelled as `ℕ`. -/
def get_durations (parseIpv4 parseIpv6 : String → Option ℕ)
    (resolver : String → Except CheckJitterError (List IpAddr))
    (runSamples : IpAddr → List ℕ → Except CheckJitterError (List ℕ))
    (rng : ℕ → ℕ) (addr : String)
    (samples min_interval max_interval : ℕ) :
    Except CheckJitterError (List ℕ) :=
  match parse_addr_with_resolver parseIpv4 parseIpv6 resolver addr with
  | .error e => .error e
  | .ok addrs =>
    match addrs.head? with
    | none => .error (.dnsLookupFailed addr)
    | some ip =>
      if samples < 2 then
        .error (.insufficientSamples samples)
      else
        runSamples ip (generate_intervals rng (samples - 1) min_interval max_interval)

/-- `get_jitter` from `src/lib.rs` (lines 1111-1135). -/
def get_jitter (parseIpv4 parseIpv6 : String → Option ℕ)
    (resolver : String → Except CheckJitterError (List IpAddr))
    (runSamples : IpAddr → List ℕ → Except CheckJitterError (List ℕ))
    (rng : ℕ → ℕ) (aggr_method : AggregationMethod) (addr : String)
    (samples min_interval max_interval : ℕ) :
    Except CheckJitterError ℚ :=
  match get_durations parseIpv4 parseIpv6 resolver runSamples rng addr
      samples min_interval max_interval with
  | .error e => .error e
  | .ok durations =>
    match calculate_deltas durations with
    | .error e => .error e
    | .ok deltas =>
      match aggr_method with
      | .average => .ok (calculate_avg_jitter deltas)
      | .median => .ok (calculate_median_jitter deltas)
      | .max => calculate_max_jitter deltas
      | .min => calculate_min_jitter deltas

/-- `display_string` from `src/lib.rs` (lines 153-163).  `fmtF` is the
`Display` implementation of `f64` (external), `fmtR` the `Display`
implementation of `nagios_range::NagiosRange` (external); `min` is the
`0.0` floor rendered through the same `f64` display. -/
def display_string (fmtF : ℚ → String) (fmtR : ThresholdRange → String)
    (label status uom : String) (f : ℚ) (t : Thresholds) : String :=
  let minStr := fmtF 0
  match t.warning, t.critical with
  | some w, some c =>
    status ++ " - " ++ label ++ ": " ++ fmtF f ++ uom ++ "|\x27" ++ label ++
      "\x27=" ++ fmtF f ++ uom ++ ";" ++ fmtR w ++ ";" ++ fmtR c ++ ";" ++ minStr
  | some w, none =>
    status ++ " - " ++ label ++ ": " ++ fmtF f ++ uom ++ "|\x27" ++ label ++
      "\x27=" ++ fmtF f ++ uom ++ ";" ++ fmtR w ++ ";;" ++ minStr
  | none, some c =>
    status ++ " - " ++ label ++ ": " ++ fmtF f ++ uom ++ "|\x27" ++ label ++
      "\x27=" ++ fmtF f ++ uom ++ ";;" ++ fmtR c ++ ";" ++ minStr
  | none, none =>
    status ++ " - " ++ label ++ ": " ++ fmtF f ++ uom ++ "|\x27" ++ label ++
      "\x27=" ++ fmtF f ++ uom ++ ";;;" ++ minStr

/-- The `label` match at the head of `impl fmt::Display for Status`
(`src/lib.rs` lines 226-240). -/
def statusLabel : Status → String
  | .ok .average _ _ => "Average Jitter"
  | .ok .median _ _ => "Median Jitter"
  | .ok .max _ _ => "Max Jitter"
  | .ok .min _ _ => "Min Jitter"
  | .warning .average _ _ => "Average Jitter"
  | .warning .median _ _ => "Median Jitter"
  | .warning .max _ _ => "Max Jitter"
  | .warning .min _ _ => "Min Jitter"
  | .critical .average _ _ => "Average Jitter"
  | .critical .median _ _ => "Median Jitter"
  | .critical .max _ _ => "Max Jitter"
  | .critical .min _ _ => "Min Jitter"
  | .unknown _ => "Unknown"

/-- The `#[error(...)]` display templates of `CheckJitterError`
(`src/lib.rs` lines 83-115). -/
def errorDisplay : CheckJitterError → String
  | .dnsLookupFailed a => "DNS Lookup failed for: " ++ a
  | .dnsResolutionError a e => "DNS resolution error for \x27" ++ a ++ "\x27: " ++ e
  | .emptyDeltas => "The delta count is 0. Cannot calculate jitter."
  | .insufficientSamples n =>
    "At least 2 samples are required to calculate jitter, got " ++ toString n ++ "."
  | .invalidIP s => "Invalid IP: " ++ s
  | .permissionDenied => "Ping failed because of insufficient permissions"
  | .pingError e => "Ping failed with error: " ++ e
  | .pingIoError s => "Ping failed with IO error: " ++ s
  | .timeout ms => "Ping timed out after: " ++ ms ++ "ms"
  | .urlParseError s => "Unable to parse hostname: " ++ s

/-- Rust `str::trim_start_matches`: repeatedly strip a non-empty leading
occurrence of `pat`.  Fuel-indexed; the caller supplies the string length
as fuel, which suffices since each strip shortens the string. -/
def trimStartMatchesAux (pat : String) : ℕ → String → String
  | 0, s => s
  | fuel + 1, s =>
    if pat ≠ "" ∧ s.startsWith pat then
      trimStartMatchesAux pat fuel (s.drop pat.length)
    else
      s

/-- Rust `s.trim_start_matches(pat)`. -/
def trimStartMatches (pat s : String) : String :=
  trimStartMatchesAux pat s.length s

/-- `impl fmt::Display for Status` from `src/lib.rs` (lines 223-299).
`fmtDur` is the `Debug` implementation of `Duration` (external), used by
the timeout variant. -/
def statusDisplay (fmtF : ℚ → String) (fmtR : ThresholdRange → String)
    (fmtDur : ℕ → String) (s : Status) : String :=
  let uom := "ms"
  let label := statusLabel s
  match s with
  | .ok _ n t => display_string fmtF fmtR label "OK" uom n t
  | .warning _ n t => display_string fmtF fmtR label "WARNING" uom n t
  | .critical _ n t => display_string fmtF fmtR label "CRITICAL" uom n t
  | .unknown (.error e) =>
    "UNKNOWN - An error occurred: \x27" ++ errorDisplay e ++ "\x27"
  | .unknown (.failedToInitLogger s) =>
    "UNKNOWN - Failed to initialize logger with error: \x27" ++ s ++ "\x27"
  | .unknown (.invalidAddr s) =>
    "UNKNOWN - Invalid address or hostname: " ++ s
  | .unknown (.invalidMinMaxInterval mn mx) =>
    "UNKNOWN - Invalid min/max interval: min: " ++ toString mn ++ ", max: " ++ toString mx
  | .unknown (.clapError s) =>
    "UNKNOWN - Command line parsing produced an error: " ++
      trimStartMatches "error: " s.trimRight
  | .unknown .noThresholds =>
    "UNKNOWN - No thresholds provided. Provide at least one threshold."
  | .unknown (.rangeParseError s e) =>
    "UNKNOWN - Unable to parse range \x27" ++ s ++ "\x27 with error: " ++ e
  | .unknown (.timeout d) =>
    "UNKNOWN - Ping timeout occurred after " ++ fmtDur d

/-- The warning/critical slot of the performance-data segment: the range's
display when present, blank when absent. -/
def thresholdSlot (fmtR : ThresholdRange → String) : Option ThresholdRange → String
  | some r => fmtR r
  | none => ""

end CheckJitter

namespace CheckJitter

theorem adjacentDeltas_length (l : List ℕ) :
    (adjacentDeltas l).length = l.length - 1 := by
  induction l with
  | nil => rfl
  | cons a t ih =>
    cases t with
    | nil => rfl
    | cons b r => simpa [adjacentDeltas] using ih

theorem adjacentDeltas_get? (l : List ℕ) (i : ℕ) (a b : ℕ)
    (ha : l.get? i = some a) (hb : l.get? (i + 1) = some b) :
    (adjacentDeltas l).get? i = some (abs_diff_duration a b) := by
  induction l generalizing i with
  | nil => simp at ha
  | cons x t ih =>
    cases t with
    | nil =>
      cases i with
      | zero => simp at hb
      | succ n => simp at hb
    | cons y r =>
      cases i with
      | zero =>
        simp only [List.get?] at ha hb
        cases ha; cases hb
        rfl
      | succ n =>
        simp only [List.get?] at ha hb
        simpa [adjacentDeltas] using ih n ha hb

/-- C1: for every list of sampled durations of length `n ≥ 2`,
`calculate_deltas` returns `Ok` with a list of length `n - 1` whose `i`-th
element is the absolute difference of the temporally adjacent samples
`i` and `i + 1`, in input order, and the successful list is never empty;
for every list of length `< 2` it returns the insufficient-samples error
carrying the sample count. -/
theorem calculate_deltas_spec (l : List ℕ) :
    (2 ≤ l.length →
      calculate_deltas l = .ok (adjacentDeltas l) ∧
      (adjacentDeltas l).length = l.length - 1 ∧
      1 ≤ (adjacentDeltas l).length ∧
      ∀ i a b, l.get? i = some a → l.get? (i + 1) = some b →
        (adjacentDeltas l).get? i = some (abs_diff_duration a b)) ∧
    (l.length < 2 →
      calculate_deltas l = .error (.insufficientSamples l.length)) := by
  constructor
  · intro h
    refine ⟨?_, adjacentDeltas_length l, ?_, fun i a b ha hb => adjacentDeltas_get? l i a b ha hb⟩
    · rw [calculate_deltas, if_neg (by omega)]
    · rw [adjacentDeltas_length]
      omega
  · intro h
    have hm : l.length % 256 = l.length := Nat.mod_eq_of_lt (by omega)
    rw [calculate_deltas, if_pos h, hm]

/-- Witness for C1 at the concrete sample lists `[100, 250, 150]` and
`[7]`. -/
theorem calculate_deltas_spec_witness :
    calculate_deltas [100, 250, 150] = .ok [150, 100] ∧
    calculate_deltas [7] = .error (.insufficientSamples 1) := by
  constructor
  · have h := (calculate_deltas_spec [100, 250, 150]).1 (by decide)
    exact h.1.trans (by rfl)
  · exact (calculate_deltas_spec [7]).2 (by decide)

/-- C2: `evaluate_thresholds` checks the critical range first and returns
`Critical` immediately when it is present and alerts; otherwise it returns
`Warning` when the warning range is present and alerts; otherwise `Ok`.
A value breaching both ranges is classified `Critical`, never
`Warning`. -/
theorem evaluate_thresholds_order (m : AggregationMethod) (v : ℚ) (t : Thresholds) :
    (criticalAlerts t v = true →
      evaluate_thresholds m v t = .critical m v t) ∧
    (criticalAlerts t v = false → warningAlerts t v = true →
      evaluate_thresholds m v t = .warning m v t) ∧
    (criticalAlerts t v = false → warningAlerts t v = false →
      evaluate_thresholds m v t = .ok m v t) ∧
    (criticalAlerts t v = true → warningAlerts t v = true →
      evaluate_thresholds m v t = .critical m v t ∧
      evaluate_thresholds m v t ≠ .warning m v t) := by
  refine ⟨fun h => ?_, fun hc hw => ?_, fun hc hw => ?_, fun hc hw => ⟨?_, ?_⟩⟩ <;>
    simp [evaluate_thresholds, *]

/-- Witness for C2 at concrete thresholds: an always-alerting critical
range (value classified Critical even though warning also alerts), a
warning-only pair, and an empty pair. -/
theorem evaluate_thresholds_order_witness :
    (criticalAlerts ⟨some ⟨fun _ => true⟩, some ⟨fun _ => true⟩⟩ 0 = true ∧
      warningAlerts ⟨some ⟨fun _ => true⟩, some ⟨fun _ => true⟩⟩ 0 = true ∧
      evaluate_thresholds .average 0 ⟨some ⟨fun _ => true⟩, some ⟨fun _ => true⟩⟩ =
        .critical .average 0 ⟨some ⟨fun _ => true⟩, some ⟨fun _ => true⟩⟩ ∧
      evaluate_thresholds .average 0 ⟨some ⟨fun _ => true⟩, some ⟨fun _ => true⟩⟩ ≠
        .warning .average 0 ⟨some ⟨fun _ => true⟩, some ⟨fun _ => true⟩⟩) ∧
    (criticalAlerts ⟨some ⟨fun _ => true⟩, none⟩ 0 = false ∧
      warningAlerts ⟨some ⟨fun _ => true⟩, none⟩ 0 = true ∧
      evaluate_thresholds .average 0 ⟨some ⟨fun _ => true⟩, none⟩ =
        .warning .average 0 ⟨some ⟨fun _ => true⟩, none⟩) ∧
    (criticalAlerts ⟨none, none⟩ 0 = false ∧
      warningAlerts ⟨none, none⟩ 0 = false ∧
      evaluate_thresholds .average 0 ⟨none, none⟩ =
        .ok .average 0 ⟨none, none⟩) := by
  refine ⟨⟨rfl, rfl, ?_⟩, ⟨rfl, rfl, ?_⟩, ⟨rfl, rfl, ?_⟩⟩
  · exact (evaluate_thresholds_order .average 0 _).2.2.2 rfl rfl
  · exact (evaluate_thresholds_order .average 0 _).2.1 rfl rfl
  · exact (evaluate_thresholds_order .average 0 _).2.2.1 rfl rfl

/-- C3 counterexample: with `min == max == 0` (a value `v = 0`) and count
`1`, `generate_intervals` produces the empty sequence, not a sequence of
length `1` — the claim as stated fails at `v = 0`. -/
theorem generate_intervals_zero_value_cex :
    (generate_intervals (fun _ => 0) 1 0 0).length ≠ 1 := by
  decide

/-- C3 (amended): for every count `n` and every value `v ≠ 0` with
`min == max == v`, `generate_intervals` produces a sequence of length `n`
in which every element equals `v` milliseconds; for `v = 0` it produces
the empty sequence. -/
theorem generate_intervals_fixed_delay (rng : ℕ → ℕ) (n v : ℕ) :
    (v ≠ 0 →
      (generate_intervals rng n v v).length = n ∧
      ∀ x ∈ generate_intervals rng n v v, x = v) ∧
    (v = 0 → generate_intervals rng n v v = []) := by
  constructor
  · intro hv
    have h1 : ¬ v > v := lt_irrefl v
    constructor
    · simp [generate_intervals, h1, hv]
    · intro x hx
      rw [generate_intervals, if_neg h1, if_neg (by simp [hv]), if_pos rfl] at hx
      exact List.eq_of_mem_replicate hx
  · intro hv
    subst hv
    rfl

/-- Witness for C3 (amended) at `v = 5`, `n = 3` and at `v = 0`. -/
theorem generate_intervals_fixed_delay_witness :
    ((5 : ℕ) ≠ 0 ∧
      ((generate_intervals (fun _ => 0) 3 5 5).length = 3 ∧
        ∀ x ∈ generate_intervals (fun _ => 0) 3 5 5, x = 5)) ∧
    ((0 : ℕ) = 0 ∧ generate_intervals (fun _ => 0) 3 0 0 = []) :=
  ⟨⟨by decide, (generate_intervals_fixed_delay (fun _ => 0) 3 5).1 (by decide)⟩,
    ⟨rfl, (generate_intervals_fixed_delay (fun _ => 0) 3 0).2 rfl⟩⟩

/-- C8: the numeric severity code is 0 for `Ok`, 1 for `Warning`, 2 for
`Critical`, 3 for `Unknown`, regardless of the carried method, value,
thresholds or error reason. -/
theorem status_to_int_mapping :
    (∀ m v t, (Status.ok m v t).toInt = 0) ∧
    (∀ m v t, (Status.warning m v t).toInt = 1) ∧
    (∀ m v t, (Status.critical m v t).toInt = 2) ∧
    (∀ u, (Status.unknown u).toInt = 3) :=
  ⟨fun _ _ _ => rfl, fun _ _ _ => rfl, fun _ _ _ => rfl, fun _ => rfl⟩

/-- C9: `evaluate_thresholds` never returns an `Unknown` classification,
and when both thresholds are `None` it returns `Ok` — the
both-thresholds-absent configuration error is not enforced by the
evaluator itself. -/
theorem evaluate_thresholds_total (m : AggregationMethod) (v : ℚ) (t : Thresholds) :
    (∀ u, evaluate_thresholds m v t ≠ .unknown u) ∧
    (t.warning = none → t.critical = none →
      evaluate_thresholds m v t = .ok m v t) := by
  constructor
  · intro u
    unfold evaluate_thresholds
    split
    · simp
    · split <;> simp
  · intro hw hc
    simp [evaluate_thresholds, criticalAlerts, warningAlerts, hw, hc]

theorem rustRound_intCast (k : ℤ) : rustRound (k : ℚ) = k := by
  rw [rustRound]
  split
  · rw [show ((k : ℚ) + 1 / 2) = (1 / 2 : ℚ) + (k : ℚ) from by ring, Int.floor_add_int]
    norm_num
  · rw [show ((k : ℚ) - 1 / 2) = (-(1 / 2) : ℚ) + (k : ℚ) from by ring, Int.ceil_add_int]
    norm_num

/-- C6: rounding is idempotent — `round_jitter (round_jitter j p) p`
equals `round_jitter j p` for every jitter value and precision, where
`round_jitter` multiplies by `10^p`, rounds to the nearest integer (ties
away from zero, as `f64::round`), and divides back. -/
theorem round_jitter_idempotent (j : ℚ) (p : ℕ) :
    round_jitter (round_jitter j p) p = round_jitter j p := by
  unfold round_jitter
  rw [div_mul_cancel₀ _ (show ((10 : ℚ) ^ p) ≠ 0 by positivity), rustRound_intCast]

/-- C4: for every non-empty delta list, `calculate_median_jitter` works on
a sorted permutation of the deltas; for odd length it returns the middle
element of the sorted copy and for even length the arithmetic mean of the
two central sorted elements, converted to milliseconds. -/
theorem calculate_median_sorted_spec (d : List ℕ) (_hne : d ≠ []) :
    d.mergeSort.Perm d ∧
    d.mergeSort.Sorted (· ≤ ·) ∧
    calculate_median_jitter d =
      (if d.length % 2 = 0 then
        (((d.mergeSort.getD (d.length / 2 - 1) 0 : ℕ) : ℚ) +
          ((d.mergeSort.getD (d.length / 2) 0 : ℕ) : ℚ)) / 2 / 1000000
      else
        ((d.mergeSort.getD (d.length / 2) 0 : ℕ) : ℚ) / 1000000) := by
  refine ⟨d.mergeSort_perm _, List.sorted_mergeSort' d, ?_⟩
  simp only [calculate_median_jitter, List.length_mergeSort]
  split_ifs with h
  · ring
  · rfl

/-- Witness for C4 at the odd-length delta list `[2, 1, 3]` and the
even-length list `[4, 1]`. -/
theorem calculate_median_sorted_spec_witness :
    (([2, 1, 3] : List ℕ) ≠ [] ∧
      ([2, 1, 3] : List ℕ).mergeSort.Perm [2, 1, 3] ∧
      ([2, 1, 3] : List ℕ).mergeSort.Sorted (· ≤ ·) ∧
      calculate_median_jitter [2, 1, 3] =
        (if ([2, 1, 3] : List ℕ).length % 2 = 0 then
          (((([2, 1, 3] : List ℕ).mergeSort.getD (([2, 1, 3] : List ℕ).length / 2 - 1) 0 : ℕ) : ℚ) +
            ((([2, 1, 3] : List ℕ).mergeSort.getD (([2, 1, 3] : List ℕ).length / 2) 0 : ℕ) : ℚ)) /
              2 / 1000000
        else
          ((([2, 1, 3] : List ℕ).mergeSort.getD (([2, 1, 3] : List ℕ).length / 2) 0 : ℕ) : ℚ) /
            1000000)) ∧
    (([4, 1] : List ℕ) ≠ [] ∧
      calculate_median_jitter [4, 1] =
        (if ([4, 1] : List ℕ).length % 2 = 0 then
          (((([4, 1] : List ℕ).mergeSort.getD (([4, 1] : List ℕ).length / 2 - 1) 0 : ℕ) : ℚ) +
            ((([4, 1] : List ℕ).mergeSort.getD (([4, 1] : List ℕ).length / 2) 0 : ℕ) : ℚ)) /
              2 / 1000000
        else
          ((([4, 1] : List ℕ).mergeSort.getD (([4, 1] : List ℕ).length / 2) 0 : ℕ) : ℚ) /
            1000000)) :=
  ⟨⟨by decide, calculate_median_sorted_spec [2, 1, 3] (by decide)⟩,
    ⟨by decide, (calculate_median_sorted_spec [4, 1] (by decide)).2.2⟩⟩

/-- C5: a host string that parses as neither IP literal goes to the DNS
resolver; the default resolver maps zero records to `DnsLookupFailed` and
a failing resolution call to `DnsResolutionError`, keeping the two failure
kinds distinct; and `get_durations` uses only the first resolved address —
the remaining addresses never influence the outcome. -/
theorem address_resolution_policy (p4 p6 : String → Option ℕ)
    (lookup : String → Except String (List IpAddr))
    (resolver : String → Except CheckJitterError (List IpAddr))
    (runSamples : IpAddr → List ℕ → Except CheckJitterError (List ℕ))
    (rng : ℕ → ℕ) (addr : String) (samples mn mx : ℕ) :
    (p4 addr = none → p6 addr = none →
      parse_addr_with_resolver p4 p6 resolver addr = resolver addr) ∧
    (lookup (addr ++ ":0") = .ok [] →
      default_resolver lookup addr = .error (.dnsLookupFailed addr)) ∧
    (∀ ip rest, lookup (addr ++ ":0") = .ok (ip :: rest) →
      default_resolver lookup addr = .ok (ip :: rest)) ∧
    (∀ e, lookup (addr ++ ":0") = .error e →
      default_resolver lookup addr = .error (.dnsResolutionError addr e)) ∧
    (∀ ip rest, parse_addr_with_resolver p4 p6 resolver addr = .ok (ip :: rest) →
      get_durations p4 p6 resolver runSamples rng addr samples mn mx =
        if samples < 2 then .error (.insufficientSamples samples)
        else runSamples ip (generate_intervals rng (samples - 1) mn mx)) ∧
    (parse_addr_with_resolver p4 p6 resolver addr = .ok [] →
      get_durations p4 p6 resolver runSamples rng addr samples mn mx =
        .error (.dnsLookupFailed addr)) := by
  refine ⟨fun h4 h6 => ?_, fun h => ?_, fun ip rest h => ?_, fun e h => ?_,
    fun ip rest h => ?_, fun h => ?_⟩
  · rw [parse_addr_with_resolver, h4, h6]
  · rw [default_resolver, h]
    rfl
  · rw [default_resolver, h]
    rfl
  · rw [default_resolver, h]
  · rw [get_durations, h]
    rfl
  · rw [get_durations, h]
    rfl

/-- Witness for C5: concrete oracle resolvers exercising each clause — a
multi-address resolution where only the first address reaches the sampler,
an empty resolution, and a failing resolution. -/
theorem address_resolution_policy_witness :
    (parse_addr_with_resolver (fun _ => none) (fun _ => none)
        (fun _ => .ok [IpAddr.v4 1, IpAddr.v4 2]) "host" =
      .ok [IpAddr.v4 1, IpAddr.v4 2]) ∧
    (default_resolver (fun _ => .ok []) "host" =
      .error (.dnsLookupFailed "host")) ∧
    (default_resolver (fun _ => .ok [IpAddr.v4 9]) "host" = .ok [IpAddr.v4 9]) ∧
    (default_resolver (fun _ => .error "boom") "host" =
      .error (.dnsResolutionError "host" "boom")) ∧
    (get_durations (fun _ => none) (fun _ => none)
        (fun _ => .ok [IpAddr.v4 1, IpAddr.v4 2]) (fun ip _ => .ok [ip.casesOn id id])
        (fun _ => 0) "host" 3 0 0 = .ok [1]) ∧
    (get_durations (fun _ => none) (fun _ => none) (fun _ => .ok [])
        (fun _ _ => .ok []) (fun _ => 0) "host" 3 0 0 =
      .error (.dnsLookupFailed "host")) :=
  ⟨(address_resolution_policy (fun _ => none) (fun _ => none) (fun _ => .ok [])
      (fun _ => .ok [IpAddr.v4 1, IpAddr.v4 2]) (fun _ _ => .ok []) (fun _ => 0)
      "host" 3 0 0).1 rfl rfl,
    (address_resolution_policy (fun _ => none) (fun _ => none) (fun _ => .ok [])
      (fun _ => .ok []) (fun _ _ => .ok []) (fun _ => 0) "host" 3 0 0).2.1 rfl,
    (address_resolution_policy (fun _ => none) (fun _ => none)
      (fun _ => .ok [IpAddr.v4 9]) (fun _ => .ok []) (fun _ _ => .ok [])
      (fun _ => 0) "host" 3 0 0).2.2.1 (IpAddr.v4 9) [] rfl,
    (address_resolution_policy (fun _ => none) (fun _ => none)
      (fun _ => .error "boom") (fun _ => .ok []) (fun _ _ => .ok [])
      (fun _ => 0) "host" 3 0 0).2.2.2.1 "boom" rfl,
    (address_resolution_policy (fun _ => none) (fun _ => none) (fun _ => .ok [])
      (fun _ => .ok [IpAddr.v4 1, IpAddr.v4 2]) (fun ip _ => .ok [ip.casesOn id id])
      (fun _ => 0) "host" 3 0 0).2.2.2.2.1 (IpAddr.v4 1) [IpAddr.v4 2] rfl,
    (address_resolution_policy (fun _ => none) (fun _ => none) (fun _ => .ok [])
      (fun _ => .ok []) (fun _ _ => .ok []) (fun _ => 0) "host" 3 0 0).2.2.2.2.2 rfl⟩

theorem calculate_deltas_ok_iff (l : List ℕ) (d : List ℕ)
    (h : calculate_deltas l = .ok d) : d = adjacentDeltas l ∧ 2 ≤ l.length := by
  rw [calculate_deltas] at h
  split at h
  · cases h
  · cases h
    exact ⟨rfl, by omega⟩

theorem calculate_deltas_error_shape (l : List ℕ) (e : CheckJitterError)
    (h : calculate_deltas l = .error e) :
    e = .insufficientSamples (l.length % 256) := by
  rw [calculate_deltas] at h
  split at h
  · cases h
    rfl
  · cases h

theorem calculate_max_jitter_cons (a : ℕ) (t : List ℕ) :
    ∃ x, calculate_max_jitter (a :: t) = .ok x := ⟨_, rfl⟩

theorem calculate_min_jitter_cons (a : ℕ) (t : List ℕ) :
    ∃ x, calculate_min_jitter (a :: t) = .ok x := ⟨_, rfl⟩

/-- C10: every successful `calculate_deltas` result is non-empty (at
least 2 samples are required), so the `EmptyDeltas` branch of the max/min
aggregations is unreachable from it and the average's divisor is never
zero; consequently `get_jitter` never surfaces `EmptyDeltas` once the
sampling stage has succeeded. -/
theorem deltas_nonempty_no_empty_error :
    (∀ l d, calculate_deltas l = .ok d →
      d ≠ [] ∧ 1 ≤ d.length ∧ d.length ≠ 0 ∧
      (∃ x, calculate_max_jitter d = .ok x) ∧
      (∃ x, calculate_min_jitter d = .ok x)) ∧
    (∀ (p4 p6 : String → Option ℕ)
      (resolver : String → Except CheckJitterError (List IpAddr))
      (runSamples : IpAddr → List ℕ → Except CheckJitterError (List ℕ))
      (rng : ℕ → ℕ) (aggr : AggregationMethod) (addr : String)
      (samples mn mx : ℕ) (durations : List ℕ),
      get_durations p4 p6 resolver runSamples rng addr samples mn mx = .ok durations →
      get_jitter p4 p6 resolver runSamples rng aggr addr samples mn mx ≠
        .error .emptyDeltas) := by
  have key : ∀ l d, calculate_deltas l = .ok d →
      d ≠ [] ∧ 1 ≤ d.length ∧ d.length ≠ 0 ∧
      (∃ x, calculate_max_jitter d = .ok x) ∧
      (∃ x, calculate_min_jitter d = .ok x) := by
    intro l d h
    obtain ⟨hd, hl⟩ := calculate_deltas_ok_iff l d h
    have hlen : 1 ≤ d.length := by
      rw [hd, adjacentDeltas_length]
      omega
    have hne : d ≠ [] := by
      intro hnil
      rw [hnil] at hlen
      simp at hlen
    refine ⟨hne, hlen, by omega, ?_, ?_⟩
    · cases d with
      | nil => exact absurd rfl hne
      | cons a t => exact calculate_max_jitter_cons a t
    · cases d with
      | nil => exact absurd rfl hne
      | cons a t => exact calculate_min_jitter_cons a t
  refine ⟨key, ?_⟩
  intro p4 p6 resolver runSamples rng aggr addr samples mn mx durations h heq
  simp only [get_jitter, h] at heq
  cases hcd : calculate_deltas durations with
  | error e =>
    simp only [hcd] at heq
    have he := calculate_deltas_error_shape durations e hcd
    rw [he] at heq
    simp at heq
  | ok deltas =>
    simp only [hcd] at heq
    obtain ⟨-, -, -, ⟨x, hmax⟩, ⟨y, hmin⟩⟩ := key durations deltas hcd
    cases aggr with
    | average => simp at heq
    | median => simp at heq
    | max =>
      rw [hmax] at heq
      simp at heq
    | min =>
      rw [hmin] at heq
      simp at heq

/-- Witness for C10 at the concrete sample list `[1, 2]` (deltas `[1]`)
and a concrete successful sampling run. -/
theorem deltas_nonempty_no_empty_error_witness :
    (calculate_deltas [1, 2] = .ok [1] ∧
      (([1] : List ℕ) ≠ [] ∧ 1 ≤ ([1] : List ℕ).length ∧ ([1] : List ℕ).length ≠ 0 ∧
        (∃ x, calculate_max_jitter [1] = .ok x) ∧
        (∃ x, calculate_min_jitter [1] = .ok x))) ∧
    (get_durations (fun _ => none) (fun _ => none) (fun _ => .ok [IpAddr.v4 1])
        (fun _ _ => .ok [5, 9]) (fun _ => 0) "host" 3 0 0 = .ok [5, 9] ∧
      get_jitter (fun _ => none) (fun _ => none) (fun _ => .ok [IpAddr.v4 1])
        (fun _ _ => .ok [5, 9]) (fun _ => 0) .max "host" 3 0 0 ≠
        .error .emptyDeltas) :=
  ⟨⟨rfl, deltas_nonempty_no_empty_error.1 [1, 2] [1] rfl⟩,
    ⟨rfl, deltas_nonempty_no_empty_error.2 (fun _ => none) (fun _ => none)
      (fun _ => .ok [IpAddr.v4 1]) (fun _ _ => .ok [5, 9]) (fun _ => 0) .max
      "host" 3 0 0 [5, 9] rfl⟩⟩

theorem string_semi_semi (s : String) : ";" ++ (";" ++ s) = ";;" ++ s := by
  rw [← String.append_assoc]
  rfl

theorem string_semisemi_semi (s : String) : ";;" ++ (";" ++ s) = ";;;" ++ s := by
  rw [← String.append_assoc]
  rfl

theorem display_string_slots (fmtF : ℚ → String) (fmtR : ThresholdRange → String)
    (label status uom : String) (f : ℚ) (t : Thresholds) :
    display_string fmtF fmtR label status uom f t =
      status ++ " - " ++ label ++ ": " ++ fmtF f ++ uom ++ "|\x27" ++ label ++
        "\x27=" ++ fmtF f ++ uom ++ ";" ++ thresholdSlot fmtR t.warning ++ ";" ++
        thresholdSlot fmtR t.critical ++ ";" ++ fmtF 0 := by
  obtain ⟨w, c⟩ := t
  cases w <;> cases c <;>
    simp [display_string, thresholdSlot, String.append_assoc, String.empty_append,
      string_semi_semi, string_semisemi_semi]

/-- C7: rendering an `Ok`, `Warning` or `Critical` status produces exactly
the line `SEVERITY - Label Jitter: value ms | perfdata` with the
semicolon-delimited threshold slots (blank when a threshold is missing), a
fixed trailing floor of 0, and a label naming the aggregation method; in
particular an `Ok` status with method Average, value 0.1, warning `0:0.5`
and critical `0:1` renders as the exact known line. -/
theorem status_render_format (fmtF : ℚ → String) (fmtR : ThresholdRange → String)
    (fmtDur : ℕ → String) (m : AggregationMethod) (v : ℚ) (t : Thresholds) :
    (statusDisplay fmtF fmtR fmtDur (.ok m v t) =
      "OK" ++ " - " ++ statusLabel (.ok m v t) ++ ": " ++ fmtF v ++ "ms" ++ "|\x27" ++
        statusLabel (.ok m v t) ++ "\x27=" ++ fmtF v ++ "ms" ++ ";" ++
        thresholdSlot fmtR t.warning ++ ";" ++ thresholdSlot fmtR t.critical ++
        ";" ++ fmtF 0) ∧
    (statusDisplay fmtF fmtR fmtDur (.warning m v t) =
      "WARNING" ++ " - " ++ statusLabel (.warning m v t) ++ ": " ++ fmtF v ++ "ms" ++
        "|\x27" ++ statusLabel (.warning m v t) ++ "\x27=" ++ fmtF v ++ "ms" ++ ";" ++
        thresholdSlot fmtR t.warning ++ ";" ++ thresholdSlot fmtR t.critical ++
        ";" ++ fmtF 0) ∧
    (statusDisplay fmtF fmtR fmtDur (.critical m v t) =
      "CRITICAL" ++ " - " ++ statusLabel (.critical m v t) ++ ": " ++ fmtF v ++ "ms" ++
        "|\x27" ++ statusLabel (.critical m v t) ++ "\x27=" ++ fmtF v ++ "ms" ++ ";" ++
        thresholdSlot fmtR t.warning ++ ";" ++ thresholdSlot fmtR t.critical ++
        ";" ++ fmtF 0) ∧
    (statusLabel (.ok .average v t) = "Average Jitter" ∧
      statusLabel (.ok .median v t) = "Median Jitter" ∧
      statusLabel (.ok .max v t) = "Max Jitter" ∧
      statusLabel (.ok .min v t) = "Min Jitter") ∧
    (∀ w c, t = ⟨some w, some c⟩ →
      fmtF v = "0.1" → fmtF 0 = "0" → fmtR w = "0:0.5" → fmtR c = "0:1" →
      statusDisplay fmtF fmtR fmtDur (.ok .average v t) =
        "OK - Average Jitter: 0.1ms|\x27Average Jitter\x27=0.1ms;0:0.5;0:1;0") := by
  refine ⟨display_string_slots fmtF fmtR (statusLabel (.ok m v t)) "OK" "ms" v t,
    display_string_slots fmtF fmtR (statusLabel (.warning m v t)) "WARNING" "ms" v t,
    display_string_slots fmtF fmtR (statusLabel (.critical m v t)) "CRITICAL" "ms" v t,
    ⟨rfl, rfl, rfl, rfl⟩, ?_⟩
  intro w c ht hF h0 hRw hRc
  subst ht
  simp only [statusDisplay, statusLabel, display_string, hF, h0, hRw, hRc]
  rfl

/-- Witness for C7: a concrete formatter pair realizing the documented
renderings of `0.1`, `0`, `0:0.5` and `0:1` yields the exact known
line. -/
theorem status_render_format_witness :
    statusDisplay (fun q => if q = 0 then "0" else "0.1")
        (fun r => if r.check 1 then "0:1" else "0:0.5") (fun _ => "")
        (.ok .average (1 / 10)
          ⟨some ⟨fun _ => false⟩, some ⟨fun _ => true⟩⟩) =
      "OK - Average Jitter: 0.1ms|\x27Average Jitter\x27=0.1ms;0:0.5;0:1;0" :=
  (status_render_format (fun q => if q = 0 then "0" else "0.1")
      (fun r => if r.check 1 then "0:1" else "0:0.5") (fun _ => "") .average (1 / 10)
      ⟨some ⟨fun _ => false⟩, some ⟨fun _ => true⟩⟩).2.2.2.2
    ⟨fun _ => false⟩ ⟨fun _ => true⟩ rfl (by norm_num) rfl rfl rfl

/-- Witness for C9 at the empty threshold pair. -/
theorem evaluate_thresholds_total_witness :
    (∀ u, evaluate_thresholds .average 0 ⟨none, none⟩ ≠ .unknown u) ∧
    ((⟨none, none⟩ : Thresholds).warning = none ∧
      (⟨none, none⟩ : Thresholds).critical = none ∧
      evaluate_thresholds .average 0 ⟨none, none⟩ = .ok .average 0 ⟨none, none⟩) :=
  ⟨(evaluate_thresholds_total .average 0 ⟨none, none⟩).1,
    rfl, rfl, (evaluate_thresholds_total .average 0 ⟨none, none⟩).2 rfl rfl⟩

end CheckJitter
